import Mathlib

/-!
Verification development for a small C-like compiler front end written in
Python: a lexer, a recursive-descent parser and a semantic analyzer with
chained scope tables.  The Python sources are embedded shallowly below:
pure Python functions become Lean functions, the mutable parser index and
the mutable scope chain become explicit state passing, and Python
exceptions become Except values.
-/

/-- A lexical token: a token type tag and the literal text, as in the
Python Token class. -/
structure Token where
  token_type : String
  value : String
deriving DecidableEq, Repr

/-- The characters of the Python constant string.punctuation, with the two
brace characters written as escapes. -/
def python_punctuation : List Char :=
  ("!\"#$%&'()*+,-./:;<=>?@[\\]^_`\x7b|\x7d~").data

/-- The whitespace characters recognised by the Python str.isspace method
on ASCII input. -/
def python_space : List Char := [' ', '\t', '\n', '\r', '\x0b', '\x0c']

/-- Embeds is_punctuator from lexer.py: a character is a punctuator when it
is in string.punctuation or is whitespace. -/
def is_punctuator (c : Char) : Bool :=
  python_punctuation.contains c || python_space.contains c

/-- Embeds is_operator from lexer.py. -/
def is_operator (c : Char) : Bool :=
  ("+-*/><|&=").data.contains c

/-- The keyword set of lexer.py. -/
def keywords : List String :=
  ["if", "else", "while", "do", "break", "continue", "int", "double",
   "float", "return", "char", "case", "long", "short", "typedef", "switch",
   "unsigned", "void", "static", "struct", "sizeof", "volatile", "enum",
   "const", "union", "extern", "bool"]

/-- Embeds is_keyword from lexer.py. -/
def is_keyword (s : String) : Bool := keywords.contains s

/-- True when the list is a nonempty run of decimal digits. -/
def digits_nonempty (l : List Char) : Bool :=
  !l.isEmpty && l.all Char.isDigit

/-- Drops one leading plus or minus sign if present. -/
def drop_sign (l : List Char) : List Char :=
  match l with
  | c :: rest => if c = '+' || c = '-' then rest else l
  | [] => []

/-- Models acceptance by the Python builtin int applied to a string, on
strings free of whitespace and underscores (the only strings this code
ever passes to it): an optional sign followed by a nonempty digit run. -/
def py_int_accepts (s : String) : Bool :=
  digits_nonempty (drop_sign s.data)

/-- Mantissa of a Python float literal: digits, optionally followed by a
dot and further digits, or a dot followed by digits. -/
def float_mantissa_ok (l : List Char) : Bool :=
  let ip := l.takeWhile Char.isDigit
  let rest := l.dropWhile Char.isDigit
  match rest with
  | [] => !ip.isEmpty
  | '.' :: fp => (!ip.isEmpty || !fp.isEmpty) && fp.all Char.isDigit
  | _ => false

/-- Exponent part of a Python float literal, after the letter e: an
optional sign then a nonempty digit run. -/
def float_exponent_ok : Option (List Char) → Bool
  | none => true
  | some l => digits_nonempty (drop_sign l)

/-- Models acceptance by the Python builtin float applied to a string, on
strings free of whitespace, underscores and the special spellings of
infinities and nans (none of which this code ever passes to it). -/
def py_float_accepts (s : String) : Bool :=
  let l := drop_sign s.data
  let mant := l.takeWhile (fun c => c ≠ 'e' && c ≠ 'E')
  match l.dropWhile (fun c => c ≠ 'e' && c ≠ 'E') with
  | [] => float_mantissa_ok mant
  | _ :: expPart => float_mantissa_ok mant && float_exponent_ok (some expPart)

/-- Embeds is_number from lexer.py: the string parses as a Python float. -/
def is_number (s : String) : Bool := py_float_accepts s

/-- Embeds valid_identifier from lexer.py. -/
def valid_identifier (s : String) : Bool :=
  match s.data with
  | [] => false
  | c :: rest =>
      !(c.isDigit || is_punctuator c) && rest.all (fun ch => !is_punctuator ch)

/-- Classifies a maximal run of non-punctuator characters, in the order
used by the lexer main loop: keyword, then number, then valid identifier,
then invalid identifier. -/
def classify_run (l : List Char) : Token :=
  let sub := String.mk l
  if is_keyword sub then ⟨("KEYWORD"), sub⟩
  else if is_number sub then ⟨("NUMBER"), sub⟩
  else if valid_identifier sub then ⟨("IDENTIFIER"), sub⟩
  else ⟨("INVALID IDENTIFIER"), sub⟩

/-- The token, if any, emitted for a single punctuator character found at a
fresh scan position: operators and the five delimiter characters are
emitted, all other punctuators and whitespace are discarded. -/
def single_char_token (c : Char) : List Token :=
  if is_operator c then [⟨("OPERATOR"), String.mk [c]⟩]
  else if ("()\x7b\x7d;").data.contains c then [⟨("DELIMITER"), String.mk [c]⟩]
  else []

/-- The main loop of the Python Lexer function, with the two scan indices
made explicit and a fuel argument standing in for the unbounded while
loop.  The wrapper Lexer below supplies fuel larger than the number of
iterations the Python loop can perform, so the fuel-exhausted branch is
never reached. -/
def lexer_loop (s : List Char) : Nat → Nat → Nat → List Token → List Token
  | 0, _, _, tokens => tokens
  | Nat.succ fuel, left, right, tokens =>
    if right ≤ s.length ∧ left ≤ right then
      match s.get? right with
      | some c =>
        if !(is_punctuator c) then
          lexer_loop s fuel left (right + 1) tokens
        else if left = right then
          lexer_loop s fuel (right + 1) (right + 1) (tokens ++ single_char_token c)
        else
          lexer_loop s fuel right right
            (tokens ++ [classify_run ((s.drop left).take (right - left))])
      | none =>
        if left ≠ right then
          lexer_loop s fuel right right
            (tokens ++ [classify_run ((s.drop left).take (right - left))])
        else
          lexer_loop s fuel left (right + 1) tokens
    else tokens

/-- Embeds the Lexer function of lexer.py. -/
def Lexer (s : String) : List Token :=
  lexer_loop s.data (2 * s.data.length + 5) 0 0 []

mutual

/-- A parse-tree node as built by parser.py: a combined label string (kind
plus payload, such as the label of an identifier node carrying its text)
and an ordered sequence of children.  The child sequence is its own
inductive type, isomorphic to a list of nodes: nesting the standard list
type here would force well-founded recursion in the tree walks below,
which would block kernel evaluation of the analyzer on concrete trees. -/
inductive ParseNode where
  | mk (name : String) (children : ParseNodeList)

/-- An ordered sequence of parse-tree nodes. -/
inductive ParseNodeList where
  | nil
  | cons (head : ParseNode) (tail : ParseNodeList)

end

/-- Builds a child sequence from a standard list of nodes. -/
def ParseNodeList.ofList : List ParseNode → ParseNodeList
  | [] => .nil
  | c :: cs => .cons c (ParseNodeList.ofList cs)

/-- The label of a node. -/
def ParseNode.name : ParseNode → String
  | .mk n _ => n

/-- The children of a node. -/
def ParseNode.children : ParseNode → ParseNodeList
  | .mk _ c => c

/-- The ways a run of the Python parser can terminate abnormally.  The
first five constructors model the Exception raises in parser.py, carrying
the same data as the Python message strings.  attributeErrorNoneType
models the Python AttributeError raised when parse_declaration or
parse_expression reads an attribute of the value None after the token
stream has been exhausted; it is a crash, not one of the deliberate parse
errors.  outOfFuel is an artefact of the fuel-based embedding of the
recursion and is unreachable under the fuel supplied by parse_program. -/
inductive ParseError where
  | unexpectedEndOfInput
  | expectedTokenType (expected got : String)
  | expectedValue (expected got : String)
  | unexpectedType (value : String)
  | unexpectedTokenInExpression (t : Token)
  | attributeErrorNoneType
  | outOfFuel
deriving DecidableEq, Repr

/-- Embeds Parser.current_token: the token at the cursor, if any. -/
def current_token (tokens : List Token) (i : Nat) : Option Token :=
  tokens.get? i

/-- Embeds Parser.consume: checks the current token against an optional
expected type and an optional expected value, then advances the cursor. -/
def consume (tokens : List Token) (i : Nat)
    (expected_type expected_value : Option String) :
    Except ParseError (Token × Nat) :=
  match current_token tokens i with
  | none => .error .unexpectedEndOfInput
  | some t =>
    match expected_type with
    | some et =>
      if t.token_type ≠ et then .error (.expectedTokenType et t.token_type)
      else
        match expected_value with
        | some ev =>
          if t.value ≠ ev then .error (.expectedValue ev t.value)
          else .ok (t, i + 1)
        | none => .ok (t, i + 1)
    | none =>
      match expected_value with
      | some ev =>
        if t.value ≠ ev then .error (.expectedValue ev t.value)
        else .ok (t, i + 1)
      | none => .ok (t, i + 1)

/-- Embeds Parser.parse_type: consume a KEYWORD token and require it to be
one of the four type names. -/
def parse_type (tokens : List Token) (i : Nat) :
    Except ParseError (ParseNode × Nat) := do
  let (tok, i) ← consume tokens i (some ("KEYWORD")) none
  if tok.value ∈ [("int"), ("float"), ("double"), ("char")] then
    .ok (.mk ("Type(" ++ tok.value ++ ")") .nil, i)
  else .error (.unexpectedType tok.value)

mutual

/-- Embeds Parser.parse_declaration.  The initial attribute access on the
current token is performed without a None check in the Python source, so
an exhausted stream at this point is a crash, not a parse error. -/
def parse_declaration (tokens : List Token) (fuel i : Nat) :
    Except ParseError (ParseNode × Nat) :=
  match fuel with
  | 0 => .error .outOfFuel
  | fuel + 1 =>
    match current_token tokens i with
    | none => .error .attributeErrorNoneType
    | some t =>
      if t.token_type = "KEYWORD" then do
        let (type_node, i) ← parse_type tokens i
        let (id_token, i) ← consume tokens i (some ("IDENTIFIER")) none
        let id_node := ParseNode.mk ("Identifier(" ++ id_token.value ++ ")") .nil
        match current_token tokens i with
        | some t2 =>
          if t2.value = "(" then
            parse_function tokens fuel i type_node id_node
          else if t2.value = "=" then do
            let (_, i) ← consume tokens i (some ("OPERATOR")) none
            let (expr_node, i) ← parse_expression tokens fuel i
            let (_, i) ← consume tokens i (some ("DELIMITER")) none
            .ok (.mk ("VariableDeclaration") (.ofList [type_node, id_node, expr_node]), i)
          else do
            let (_, i) ← consume tokens i (some ("DELIMITER")) none
            .ok (.mk ("VariableDeclaration") (.ofList [type_node, id_node]), i)
        | none => do
          let (_, i) ← consume tokens i (some ("DELIMITER")) none
          .ok (.mk ("VariableDeclaration") (.ofList [type_node, id_node]), i)
      else do
        let (expr_node, i) ← parse_expression tokens fuel i
        let (_, i) ← consume tokens i (some ("DELIMITER")) none
        .ok (.mk ("ExpressionStatement") (.ofList [expr_node]), i)
termination_by structural fuel

/-- Embeds Parser.parse_function. -/
def parse_function (tokens : List Token) (fuel i : Nat)
    (type_node id_node : ParseNode) : Except ParseError (ParseNode × Nat) :=
  match fuel with
  | 0 => .error .outOfFuel
  | fuel + 1 => do
    let (_, i) ← consume tokens i (some ("DELIMITER")) (some ("("))
    let (_, i) ← consume tokens i (some ("DELIMITER")) (some (")"))
    let (_, i) ← consume tokens i (some ("DELIMITER")) (some ("\x7b"))
    let (body_node, i) ← parse_declaration_list tokens fuel i []
    let (_, i) ← consume tokens i (some ("DELIMITER")) (some ("\x7d"))
    .ok (.mk ("Function") (.ofList [type_node, id_node, body_node]), i)
termination_by structural fuel

/-- Embeds the while loop of Parser.parse_declaration_list, accumulating
the declarations parsed so far. -/
def parse_declaration_list (tokens : List Token) (fuel i : Nat)
    (acc : List ParseNode) : Except ParseError (ParseNode × Nat) :=
  match fuel with
  | 0 => .error .outOfFuel
  | fuel + 1 =>
    match current_token tokens i with
    | some t =>
      if t.value ≠ "\x7d" then do
        let (d, i) ← parse_declaration tokens fuel i
        parse_declaration_list tokens fuel i (acc ++ [d])
      else .ok (.mk ("DeclarationList") (.ofList acc), i)
    | none => .ok (.mk ("DeclarationList") (.ofList acc), i)
termination_by structural fuel

/-- Embeds Parser.parse_expression.  As in parse_declaration, the Python
source reads an attribute of the current token before checking it for
None, so an exhausted stream here is a crash, not a parse error. -/
def parse_expression (tokens : List Token) (fuel i : Nat) :
    Except ParseError (ParseNode × Nat) :=
  match fuel with
  | 0 => .error .outOfFuel
  | fuel + 1 =>
    match current_token tokens i with
    | none => .error .attributeErrorNoneType
    | some t =>
      if t.token_type = "NUMBER" then do
        let (_, i) ← consume tokens i (some ("NUMBER")) none
        .ok (.mk ("Number(" ++ t.value ++ ")") .nil, i)
      else if t.token_type = "IDENTIFIER" then do
        let id_node := ParseNode.mk ("Identifier(" ++ t.value ++ ")") .nil
        let (_, i) ← consume tokens i (some ("IDENTIFIER")) none
        match current_token tokens i with
        | some t2 =>
          if t2.value = "(" then parse_function_call tokens fuel i id_node
          else .ok (id_node, i)
        | none => .ok (id_node, i)
      else .error (.unexpectedTokenInExpression t)
termination_by structural fuel

/-- Embeds Parser.parse_function_call. -/
def parse_function_call (tokens : List Token) (fuel i : Nat)
    (id_node : ParseNode) : Except ParseError (ParseNode × Nat) :=
  match fuel with
  | 0 => .error .outOfFuel
  | fuel + 1 => do
    let (_, i) ← consume tokens i (some ("DELIMITER")) (some ("("))
    let (args, i) ← parse_argument_list tokens fuel i
    let (_, i) ← consume tokens i (some ("DELIMITER")) (some (")"))
    .ok (.mk ("FunctionCall") (.ofList (id_node :: args)), i)
termination_by structural fuel

/-- Embeds Parser.parse_argument_list: the first argument, if the next
token is not a closing parenthesis, then the comma-separated rest. -/
def parse_argument_list (tokens : List Token) (fuel i : Nat) :
    Except ParseError (List ParseNode × Nat) :=
  match fuel with
  | 0 => .error .outOfFuel
  | fuel + 1 =>
    match current_token tokens i with
    | some t =>
      if t.value ≠ ")" then do
        let (a, i) ← parse_expression tokens fuel i
        parse_argument_loop tokens fuel i [a]
      else .ok ([], i)
    | none => .ok ([], i)
termination_by structural fuel

/-- Embeds the while loop over commas inside Parser.parse_argument_list. -/
def parse_argument_loop (tokens : List Token) (fuel i : Nat)
    (args : List ParseNode) : Except ParseError (List ParseNode × Nat) :=
  match fuel with
  | 0 => .error .outOfFuel
  | fuel + 1 =>
    match current_token tokens i with
    | some t =>
      if t.value = "," then do
        let (_, i) ← consume tokens i (some ("DELIMITER")) (some (","))
        let (a, i) ← parse_expression tokens fuel i
        parse_argument_loop tokens fuel i (args ++ [a])
      else .ok (args, i)
    | none => .ok (args, i)
termination_by structural fuel

/-- Embeds the while loop of Parser.parse_program. -/
def parse_program_loop (tokens : List Token) (fuel i : Nat)
    (acc : List ParseNode) : Except ParseError (ParseNode × Nat) :=
  match fuel with
  | 0 => .error .outOfFuel
  | fuel + 1 =>
    if i < tokens.length then do
      let (d, i) ← parse_declaration tokens fuel i
      parse_program_loop tokens fuel i (acc ++ [d])
    else .ok (.mk ("Program") (.ofList acc), i)
termination_by structural fuel

end

/-- Fuel large enough for every call chain the parser can make on the
given token stream: every recursive step either consumes a token first or
is one of a bounded number of production switches per token. -/
def parser_fuel (tokens : List Token) : Nat := 8 * tokens.length + 16

/-- Embeds Parser.parse_program as called on a fresh parser. -/
def parse_program (tokens : List Token) : Except ParseError ParseNode :=
  (parse_program_loop tokens (parser_fuel tokens) 0 []).map Prod.fst

/-- Splits a character list at every occurrence of the given character, as
the Python str.split method does with a one-character separator. -/
def split_on_char (c : Char) : List Char → List (List Char)
  | [] => [[]]
  | x :: xs =>
    let r := split_on_char c xs
    if x = c then [] :: r
    else
      match r with
      | h :: t => (x :: h) :: t
      | [] => [[x]]

/-- Python str.split with a one-character separator, on strings. -/
def py_split (s : String) (c : Char) : List String :=
  (split_on_char c s.data).map String.mk

/-- Python str.strip with a one-character argument: removes every copy of
that character from both ends of the string. -/
def py_strip (c : Char) (s : String) : String :=
  String.mk (((s.data.dropWhile (fun x => x = c)).reverse.dropWhile
    (fun x => x = c)).reverse)

/-- Python str.startswith. -/
def starts_with (s pat : String) : Bool :=
  pat.data.isPrefixOf s.data

/-- The node-kind part of a combined node label: the text before the first
opening parenthesis.  Embeds the expression node.name.split into the
analyzer dispatch. -/
def node_kind (label : String) : String :=
  (py_split label '(').headD ("")

/-- The payload part of a combined node label: element one of the split at
opening parentheses, stripped of parenthesis characters at both ends.
Embeds the payload extraction expressions of the analyzer.  On a label
with no opening parenthesis the Python expression raises an IndexError;
the analyzer only extracts payloads from labels that contain one, and this
embedding returns the empty string on that unreachable shape. -/
def payload (label : String) : String :=
  py_strip ')' ((py_split label '(').getD 1 (""))

/-- A declared symbol: its type name and whether it is a function. -/
structure SymbolInfo where
  type : String
  is_function : Bool
deriving DecidableEq, Repr

/-- One scope of the symbol table: an insertion-ordered association list
from names to symbols, modelling the Python dict self.symbols. -/
abbrev Scope := List (String × SymbolInfo)

/-- The scope chain of the analyzer, innermost scope first; the global
scope is the last element.  Models the current symbol table object
together with its chain of parent references. -/
abbrev Chain := List Scope

/-- The abnormal terminations of a run of the semantic analyzer.  The
first five constructors model the SemanticError raises of the Python
source, carrying the same data as the Python message strings.  The two
wrapper constructors model the re-raises that prepend a call-specific or
assignment-specific text to a caught SemanticError message.  pyIndexError
models a Python IndexError from reading a child at a position that does
not exist; it can only arise on parse trees of shapes the parser never
produces. -/
inductive SemanticError where
  | duplicateSymbol (name : String)
  | undeclaredSymbol (name : String)
  | notAFunction (name : String)
  | typeMismatch (valueType expectedType : String)
  | invalidNumber (value : String)
  | functionCallError (e : SemanticError)
  | assignmentError (e : SemanticError)
  | pyIndexError
deriving DecidableEq, Repr

/-- Embeds SymbolTable.declare, acting on one scope: an error when the
name is already a key of this scope, otherwise insertion at the end. -/
def declare (s : Scope) (name type_name : String) (is_function : Bool) :
    Except SemanticError Scope :=
  if (s.lookup name).isSome then .error (.duplicateSymbol name)
  else .ok (s ++ [(name, ⟨type_name, is_function⟩)])

/-- Embeds SymbolTable.lookup on the chain of parent references: the
innermost scope containing the name wins, and an exhausted chain is an
undeclared-symbol error. -/
def lookupChain : Chain → String → Except SemanticError SymbolInfo
  | [], name => .error (.undeclaredSymbol name)
  | s :: rest, name =>
    match s.lookup name with
    | some v => .ok v
    | none => lookupChain rest name

/-- Declares into the current (innermost) scope of the chain, as the call
self.current_symbol_table.declare does.  The analyzer chain is never
empty, so the empty case is unreachable. -/
def declareChain (st : Chain) (name type_name : String) (is_function : Bool) :
    Except SemanticError Chain :=
  match st with
  | s :: rest => (declare s name type_name is_function).map (fun s2 => s2 :: rest)
  | [] => .ok []

/-- The fixed compatibility dictionary of the analyzer. -/
def compatible_types : List (String × List String) :=
  [(("int"), [("int")]),
   (("float"), [("int"), ("float")]),
   (("double"), [("int"), ("float"), ("double")]),
   (("char"), [("char")])]

/-- Embeds SemanticAnalyzer._is_compatible_type: membership of the second
type in the list the dictionary assigns to the first, with an absent first
type yielding the empty list. -/
def is_compatible_type (type1 type2 : String) : Bool :=
  ((compatible_types.lookup type1).getD []).contains type2

/-- Embeds SemanticAnalyzer._infer_number_type: int if the Python int
builtin accepts the payload, else double if the float builtin does, else
an invalid-number error. -/
def infer_number_type (number_label : String) : Except SemanticError String :=
  let value := payload number_label
  if py_int_accepts value then .ok ("int")
  else if py_float_accepts value then .ok ("double")
  else .error (.invalidNumber value)

/-- Embeds SemanticAnalyzer._type_check_assignment.  In the identifier
branch the Python try block encloses both the lookup and the
compatibility raise, so both failures are re-raised wrapped as assignment
errors; in the number branch nothing is wrapped; a value node of any
other kind is not checked at all. -/
def type_check_assignment (st : Chain) (expected_type : String)
    (value_node : ParseNode) : Except SemanticError Unit :=
  if starts_with value_node.name ("Number") then
    match infer_number_type value_node.name with
    | .error e => .error e
    | .ok value_type =>
      if is_compatible_type expected_type value_type then .ok ()
      else .error (.typeMismatch value_type expected_type)
  else if starts_with value_node.name ("Identifier") then
    let var_name := payload value_node.name
    match lookupChain st var_name with
    | .error e => .error (.assignmentError e)
    | .ok var_info =>
      if is_compatible_type expected_type var_info.type then .ok ()
      else .error (.assignmentError (.typeMismatch var_info.type expected_type))
  else .ok ()

/-- Embeds SemanticAnalyzer._analyze_variable_declaration: extract the
type and name payloads, type-check the third child against the declared
type when present, then declare the name in the current scope with the
function flag false. -/
def analyze_variable_declaration (st : Chain) (children : ParseNodeList) :
    Except SemanticError Chain :=
  match children with
  | .cons tnode (.cons idnode rest) =>
    let var_type := payload tnode.name
    let var_name := payload idnode.name
    match rest with
    | .cons init_node _ =>
      match type_check_assignment st var_type init_node with
      | .error e => .error e
      | .ok _ => declareChain st var_name var_type false
    | .nil => declareChain st var_name var_type false
  | _ => .error .pyIndexError

/-- Embeds SemanticAnalyzer._analyze_function_call: look the callee name
up in the current chain and require the resolved symbol to be a function;
either failure is re-raised wrapped as a function-call error.  The
argument children are never touched and the chain is returned unchanged. -/
def analyze_function_call (st : Chain) (children : ParseNodeList) :
    Except SemanticError Chain :=
  match children with
  | .cons c0 _ =>
    let func_name := payload c0.name
    match lookupChain st func_name with
    | .error e => .error (.functionCallError e)
    | .ok func_info =>
      if !func_info.is_function then
        .error (.functionCallError (.notAFunction func_name))
      else .ok st
  | .nil => .error .pyIndexError

mutual

/-- Embeds SemanticAnalyzer._analyze_node: dispatch on the kind part of
the label.  The Program and ExpressionStatement methods and the default
method all just visit the children in order, so they share one branch. -/
def analyze_node (st : Chain) (node : ParseNode) : Except SemanticError Chain :=
  match node with
  | .mk label children =>
    if node_kind label = "Function" then analyze_function st children
    else if node_kind label = "VariableDeclaration" then
      analyze_variable_declaration st children
    else if node_kind label = "FunctionCall" then
      analyze_function_call st children
    else analyze_children st children

/-- Embeds SemanticAnalyzer._analyze_function: read the return type and
name payloads, declare the function in the enclosing scope, push a fresh
scope, analyze the body (the third child), and pop back.  The push, the
declaration into the previous table and the pop reproduce the Python
assignments to current_symbol_table. -/
def analyze_function (st : Chain) (children : ParseNodeList) :
    Except SemanticError Chain :=
  match children with
  | .cons tnode (.cons idnode (.cons body _)) =>
    let return_type := payload tnode.name
    let func_name := payload idnode.name
    match st with
    | s :: rest =>
      match declare s func_name return_type true with
      | .error e => .error e
      | .ok s2 =>
        match analyze_node (([] : Scope) :: s2 :: rest) body with
        | .error e => .error e
        | .ok st2 => .ok st2.tail
    | [] => .error .pyIndexError
  | _ => .error .pyIndexError

/-- The child-visiting loop shared by _analyze_program,
_analyze_expression_statement and _default_analysis. -/
def analyze_children (st : Chain) (children : ParseNodeList) :
    Except SemanticError Chain :=
  match children with
  | .nil => .ok st
  | .cons c cs =>
    match analyze_node st c with
    | .error e => .error e
    | .ok st2 => analyze_children st2 cs

end

/-- The default predefined functions of SemanticAnalyzer.__init__. -/
def default_functions : List (String × SymbolInfo) :=
  [(("printf"), ⟨("int"), true⟩),
   (("puts"), ⟨("int"), true⟩),
   (("getchar"), ⟨("int"), true⟩),
   (("scanf"), ⟨("int"), true⟩)]

/-- Embeds SemanticAnalyzer.__init__: the caller-supplied mapping is used
when it is truthy, that is, present and non-empty, and the default set is
used otherwise; each entry is declared into the fresh global scope. -/
def analyzer_init (predefined_functions : Option (List (String × SymbolInfo))) :
    Except SemanticError Scope :=
  let functions_to_add :=
    match predefined_functions with
    | none => default_functions
    | some l => if l.isEmpty then default_functions else l
  functions_to_add.foldlM
    (fun g p => declare g p.1 p.2.type p.2.is_function) ([] : Scope)

/-- Embeds SemanticAnalyzer.analyze on a fresh analyzer: seed the global
scope, walk the tree starting from a chain holding only the global scope,
and return the global scope, which is the last scope of the final chain. -/
def analyze (predefined_functions : Option (List (String × SymbolInfo)))
    (parse_tree : ParseNode) : Except SemanticError Scope :=
  match analyzer_init predefined_functions with
  | .error e => .error e
  | .ok g =>
    match analyze_node [g] parse_tree with
    | .error e => .error e
    | .ok st => .ok (st.getLastD [])

/-! ### Small step equations and helper lemmas -/

/-- One-step equation for analyze_node on an explicit node. -/
theorem analyze_node_step (st : Chain) (label : String) (children : ParseNodeList) :
    analyze_node st (.mk label children) =
      (if node_kind label = "Function" then analyze_function st children
       else if node_kind label = "VariableDeclaration" then
         analyze_variable_declaration st children
       else if node_kind label = "FunctionCall" then
         analyze_function_call st children
       else analyze_children st children) := rfl

/-- One-step equation for analyze_children on an empty sequence. -/
theorem analyze_children_nil (st : Chain) : analyze_children st .nil = .ok st := rfl

/-- One-step equation for analyze_children on a nonempty sequence. -/
theorem analyze_children_cons (st : Chain) (c0 : ParseNode) (cs0 : ParseNodeList) :
    analyze_children st (.cons c0 cs0) =
      (match analyze_node st c0 with
       | .error e => .error e
       | .ok st2 => analyze_children st2 cs0) := rfl

/-- One-step equation for analyze_function on a sequence with at least
three children and a nonempty scope chain. -/
theorem analyze_function_step (s : Scope) (rest : List Scope)
    (tnode idnode body : ParseNode) (tail : ParseNodeList) :
    analyze_function (s :: rest) (.cons tnode (.cons idnode (.cons body tail))) =
      (match declare s (payload idnode.name) (payload tnode.name) true with
       | .error e => .error e
       | .ok s2 =>
         match analyze_node (([] : Scope) :: s2 :: rest) body with
         | .error e => .error e
         | .ok st2 => .ok st2.tail) := rfl

/-- Looking a name up in a concatenation whose first part misses it is
looking it up in the second part. -/
theorem lookup_append_of_none (s t : Scope) (n : String) (h : s.lookup n = none) :
    (s ++ t).lookup n = t.lookup n := by
  induction s with
  | nil => simp
  | cons p ps ih =>
    obtain ⟨k, v⟩ := p
    by_cases hk : (n == k) = true
    · simp [List.lookup, hk] at h
    · rw [Bool.not_eq_true] at hk
      simp only [List.lookup, List.cons_append, hk] at h ⊢
      exact ih h

/-- Appending a binding for a name absent from a scope makes that binding
the one found. -/
theorem lookup_append_self (s : Scope) (n : String) (v : SymbolInfo)
    (h : s.lookup n = none) : (s ++ [(n, v)]).lookup n = some v := by
  rw [lookup_append_of_none s _ n h]
  simp [List.lookup]

/-- A successful variable-declaration analysis only rewrites the innermost
scope. -/
theorem analyze_variable_declaration_frame (children : ParseNodeList)
    (c : Scope) (t : List Scope) (res : Chain)
    (h : analyze_variable_declaration (c :: t) children = .ok res) :
    ∃ c2, res = c2 :: t := by
  rcases children with _ | ⟨tnode, _ | ⟨idnode, rest⟩⟩
  · simp [analyze_variable_declaration] at h
  · simp [analyze_variable_declaration] at h
  · rcases rest with _ | ⟨init_node, _⟩
    · rcases hd : declare c (payload idnode.name) (payload tnode.name) false with e | s2
      · simp [analyze_variable_declaration, declareChain, Except.map, hd] at h
      · simp [analyze_variable_declaration, declareChain, Except.map, hd] at h
        exact ⟨s2, h.symm⟩
    · rcases htc : type_check_assignment (c :: t) (payload tnode.name) init_node with e | u
      · simp [analyze_variable_declaration, htc] at h
      · rcases hd : declare c (payload idnode.name) (payload tnode.name) false with e | s2
        · simp [analyze_variable_declaration, declareChain, Except.map, htc, hd] at h
        · simp [analyze_variable_declaration, declareChain, Except.map, htc, hd] at h
          exact ⟨s2, h.symm⟩

/-- A successful function-call analysis returns the chain unchanged. -/
theorem analyze_function_call_frame (children : ParseNodeList)
    (c : Scope) (t : List Scope) (res : Chain)
    (h : analyze_function_call (c :: t) children = .ok res) :
    ∃ c2, res = c2 :: t := by
  rcases children with _ | ⟨c0, rest⟩
  · simp [analyze_function_call] at h
  · rcases hl : lookupChain (c :: t) (payload c0.name) with e | info
    · simp [analyze_function_call, hl] at h
    · by_cases hf : info.is_function
      · simp [analyze_function_call, hl, hf] at h
        exact ⟨c, h.symm⟩
      · simp [analyze_function_call, hl, hf] at h

mutual

/-- The tree walk never touches the scopes outside the innermost one: a
successful analysis of any node from a chain replaces the head scope and
keeps the tail intact. -/
theorem analyze_node_frame (node : ParseNode) :
    ∀ (c : Scope) (t : List Scope) (res : Chain),
      analyze_node (c :: t) node = .ok res → ∃ c2, res = c2 :: t := by
  cases node with
  | mk label children =>
    intro c t res h
    rw [analyze_node_step] at h
    split_ifs at h
    · exact analyze_function_frame children c t res h
    · exact analyze_variable_declaration_frame children c t res h
    · exact analyze_function_call_frame children c t res h
    · exact analyze_children_frame children c t res h

/-- Frame property of the child-visiting loop. -/
theorem analyze_children_frame (cs : ParseNodeList) :
    ∀ (c : Scope) (t : List Scope) (res : Chain),
      analyze_children (c :: t) cs = .ok res → ∃ c2, res = c2 :: t := by
  cases cs with
  | nil =>
    intro c t res h
    rw [analyze_children_nil] at h
    exact ⟨c, (Except.ok.injEq _ _ ▸ h).symm⟩
  | cons c0 cs0 =>
    intro c t res h
    rw [analyze_children_cons] at h
    rcases hn : analyze_node (c :: t) c0 with e | st2
    · simp [hn] at h
    · simp only [hn] at h
      obtain ⟨c2, rfl⟩ := analyze_node_frame c0 c t st2 hn
      exact analyze_children_frame cs0 c2 t res h

/-- Frame property of function analysis. -/
theorem analyze_function_frame (cs : ParseNodeList) :
    ∀ (c : Scope) (t : List Scope) (res : Chain),
      analyze_function (c :: t) cs = .ok res → ∃ c2, res = c2 :: t := by
  cases cs with
  | nil => intro c t res h; exact absurd h (by simp [analyze_function])
  | cons tnode rest =>
    cases rest with
    | nil => intro c t res h; exact absurd h (by simp [analyze_function])
    | cons idnode rest2 =>
      cases rest2 with
      | nil => intro c t res h; exact absurd h (by simp [analyze_function])
      | cons body tail =>
        intro c t res h
        rw [analyze_function_step] at h
        rcases hd : declare c (payload idnode.name) (payload tnode.name) true with e | s2
        · simp [hd] at h
        · simp only [hd] at h
          rcases hb : analyze_node (([] : Scope) :: s2 :: t) body with e | st2
          · simp [hb] at h
          · simp only [hb] at h
            obtain ⟨c2, rfl⟩ := analyze_node_frame body ([] : Scope) (s2 :: t) st2 hb
            simp at h
            exact ⟨s2, h.symm⟩

end

/-! ### Claims -/

/-- C10: constructing the semantic analyzer with an empty predefined
mapping does not produce an empty global scope: because the Python
expression predefined_functions or default_functions treats an empty dict
as falsy, an empty mapping falls back to the default set, and the global
scope is seeded with printf, puts, getchar and scanf, each an int-typed
function symbol, exactly as when no mapping is supplied. -/
theorem C10_empty_predefined_falls_back_to_defaults :
    analyzer_init (some []) = analyzer_init none ∧
    analyzer_init (some []) =
      .ok [(("printf"), ⟨("int"), true⟩), (("puts"), ⟨("int"), true⟩),
           (("getchar"), ⟨("int"), true⟩), (("scanf"), ⟨("int"), true⟩)] :=
  ⟨rfl, rfl⟩

/-- C2: type compatibility for initializers is exactly the fixed
asymmetric relation: int accepts only int, float accepts int or float,
double accepts int, float or double, char accepts only char, and every
other pair is incompatible.  Concretely, declaring an int variable from
the literal 5 succeeds, declaring an int variable from the double literal
5.0 fails with the type-mismatch error, and declaring a double variable
from the literal 5 succeeds. -/
theorem C2_type_compatibility_lattice :
    (∀ t1 t2 : String, is_compatible_type t1 t2 = true ↔
      ((t1 = "int" ∧ t2 = "int") ∨
       (t1 = "float" ∧ (t2 = "int" ∨ t2 = "float")) ∨
       (t1 = "double" ∧ (t2 = "int" ∨ t2 = "float" ∨ t2 = "double")) ∨
       (t1 = "char" ∧ t2 = "char"))) ∧
    analyze_node [[]] (.mk ("VariableDeclaration") (.ofList
      [.mk ("Type(int)") .nil, .mk ("Identifier(x)") .nil, .mk ("Number(5)") .nil]))
      = .ok [[(("x"), ⟨("int"), false⟩)]] ∧
    analyze_node [[]] (.mk ("VariableDeclaration") (.ofList
      [.mk ("Type(int)") .nil, .mk ("Identifier(x)") .nil, .mk ("Number(5.0)") .nil]))
      = .error (.typeMismatch ("double") ("int")) ∧
    analyze_node [[]] (.mk ("VariableDeclaration") (.ofList
      [.mk ("Type(double)") .nil, .mk ("Identifier(y)") .nil, .mk ("Number(5)") .nil]))
      = .ok [[(("y"), ⟨("double"), false⟩)]] := by
  refine ⟨?_, rfl, rfl, rfl⟩
  intro t1 t2
  unfold is_compatible_type compatible_types
  rcases eq_or_ne t1 "int" with h1 | h1
  · subst h1; simp [List.lookup]
  rcases eq_or_ne t1 "float" with h2 | h2
  · subst h2; simp [List.lookup]
  rcases eq_or_ne t1 "double" with h3 | h3
  · subst h3; simp [List.lookup]
  rcases eq_or_ne t1 "char" with h4 | h4
  · subst h4; simp [List.lookup]
  · have e1 : (t1 == "int") = false := beq_eq_false_iff_ne.mpr h1
    have e2 : (t1 == "float") = false := beq_eq_false_iff_ne.mpr h2
    have e3 : (t1 == "double") = false := beq_eq_false_iff_ne.mpr h3
    have e4 : (t1 == "char") = false := beq_eq_false_iff_ne.mpr h4
    simp [List.lookup, e1, e2, e3, e4, h1, h2, h3, h4]

/-- C2 witness: the compatibility relation evaluated through the
biconditional at a concrete pair. -/
theorem C2_witness : is_compatible_type ("double") ("float") = true :=
  (C2_type_compatibility_lattice.1 ("double") ("float")).mpr
    (Or.inr (Or.inr (Or.inl ⟨rfl, Or.inr (Or.inl rfl)⟩)))

/-- C6: declare raises the duplicate-symbol error exactly when the name is
already a key of the innermost scope itself, regardless of the recorded
types and with the outer scopes playing no role, and otherwise appends the
new binding to that scope and leaves every outer scope unchanged, which is
what permits shadowing an enclosing-scope name in a new scope. -/
theorem C6_declare_duplicate_iff_in_own_scope :
    ∀ (s : Scope) (rest : List Scope) (name type_name : String) (b : Bool),
      (declareChain (s :: rest) name type_name b
          = .error (.duplicateSymbol name) ↔ (s.lookup name).isSome = true) ∧
      ((s.lookup name).isSome = false →
        declareChain (s :: rest) name type_name b
          = .ok ((s ++ [(name, ⟨type_name, b⟩)]) :: rest)) := by
  intro s rest name type_name b
  constructor
  · constructor
    · intro h
      by_contra hns
      simp [declareChain, declare, hns, Except.map] at h
    · intro h
      simp [declareChain, declare, h, Except.map]
  · intro h
    simp [declareChain, declare, h, Except.map]

/-- C6 witness: a duplicate declaration in the innermost scope fails even
though the outer scope is empty, and a fresh name succeeds even though an
outer scope already holds it. -/
theorem C6_witness :
    declareChain [[(("x"), ⟨("int"), false⟩)], []] ("x") ("double") false
        = .error (.duplicateSymbol ("x")) ∧
    declareChain [[], [(("x"), ⟨("int"), false⟩)]] ("x") ("int") false
        = .ok [[(("x"), ⟨("int"), false⟩)], [(("x"), ⟨("int"), false⟩)]] := by
  constructor
  · exact (C6_declare_duplicate_iff_in_own_scope
      [(("x"), ⟨("int"), false⟩)] [[]] ("x") ("double") false).1.mpr (by decide)
  · exact (C6_declare_duplicate_iff_in_own_scope
      [] [[(("x"), ⟨("int"), false⟩)]] ("x") ("int") false).2 (by decide)

/-- Lookup skips a scope that does not hold the name. -/
theorem lookupChain_cons_none (s : Scope) (rest : List Scope) (name : String)
    (h : s.lookup name = none) :
    lookupChain (s :: rest) name = lookupChain rest name := by
  simp [lookupChain, h]

/-- Lookup stops at the first scope that holds the name. -/
theorem lookupChain_cons_some (s : Scope) (rest : List Scope) (name : String)
    (w : SymbolInfo) (h : s.lookup name = some w) :
    lookupChain (s :: rest) name = .ok w := by
  simp [lookupChain, h]

/-- C7: lookup returns the symbol stored for the name in the innermost
scope of the chain that contains it, checking the current scope first and
then delegating outward through the parent references, and yields the
undeclared-symbol error exactly when no scope in the chain holds the
name.  In particular, analyzing a plain declaration of a name with one of
the four type keywords records the name in the innermost scope with that
type and the function flag false, and an immediate lookup returns exactly
that entry. -/
theorem C7_lookup_walks_chain_and_declaration_roundtrip :
    (∀ (chain : Chain) (name : String),
      lookupChain chain name = .error (.undeclaredSymbol name) ↔
        ∀ s ∈ chain, s.lookup name = none) ∧
    (∀ (chain : Chain) (name : String) (v : SymbolInfo),
      lookupChain chain name = .ok v ↔
        ∃ pre s post, chain = pre ++ s :: post ∧ s.lookup name = some v ∧
          ∀ s2 ∈ pre, s2.lookup name = none) ∧
    (∀ (s : Scope) (rest : List Scope) (tl il : String),
      tl ∈ [("Type(int)"), ("Type(float)"), ("Type(double)"), ("Type(char)")] →
      s.lookup (payload il) = none →
        analyze_node (s :: rest) (.mk ("VariableDeclaration")
            (.ofList [.mk tl .nil, .mk il .nil]))
          = .ok ((s ++ [(payload il, ⟨payload tl, false⟩)]) :: rest) ∧
        lookupChain ((s ++ [(payload il, ⟨payload tl, false⟩)]) :: rest) (payload il)
          = .ok ⟨payload tl, false⟩) := by
  refine ⟨?_, ?_, ?_⟩
  · intro chain name
    induction chain with
    | nil => simp [lookupChain]
    | cons s rest ih =>
      rcases hs : s.lookup name with _ | w
      · rw [lookupChain_cons_none s rest name hs, ih]
        constructor
        · intro h s2 hs2
          rcases List.mem_cons.mp hs2 with rfl | hm
          · exact hs
          · exact h s2 hm
        · intro h s2 hm
          exact h s2 (List.mem_cons_of_mem _ hm)
      · rw [lookupChain_cons_some s rest name w hs]
        constructor
        · intro h
          exact absurd h (by simp)
        · intro h
          have h2 := h s (List.mem_cons_self s rest)
          rw [hs] at h2
          exact absurd h2 (by simp)
  · intro chain name v
    induction chain with
    | nil =>
      constructor
      · intro h
        exact absurd h (by simp [lookupChain])
      · rintro ⟨pre, sc, post, heq, hf, hpre⟩
        exact absurd heq (by simp)
    | cons s rest ih =>
      rcases hs : s.lookup name with _ | w
      · constructor
        · intro h
          rw [lookupChain_cons_none s rest name hs] at h
          obtain ⟨pre, sc, post, heq, hf, hpre⟩ := ih.mp h
          refine ⟨s :: pre, sc, post, by rw [heq, List.cons_append], hf, ?_⟩
          intro s2 hs2
          rcases List.mem_cons.mp hs2 with rfl | hmem
          · exact hs
          · exact hpre s2 hmem
        · rintro ⟨pre, sc, post, heq, hf, hpre⟩
          rcases pre with _ | ⟨p, pre2⟩
          · simp only [List.nil_append] at heq
            obtain ⟨h1, h2⟩ := List.cons_eq_cons.mp heq
            subst h1
            rw [hs] at hf
            simp at hf
          · simp only [List.cons_append] at heq
            obtain ⟨h1, h2⟩ := List.cons_eq_cons.mp heq
            subst h1
            rw [lookupChain_cons_none s rest name hs]
            exact ih.mpr ⟨pre2, sc, post, h2, hf, fun s2 m =>
              hpre s2 (List.mem_cons_of_mem _ m)⟩
      · constructor
        · intro h
          rw [lookupChain_cons_some s rest name w hs] at h
          injection h with h2
          subst h2
          exact ⟨[], s, rest, rfl, hs, by simp⟩
        · rintro ⟨pre, sc, post, heq, hf, hpre⟩
          rcases pre with _ | ⟨p, pre2⟩
          · simp only [List.nil_append] at heq
            obtain ⟨h1, h2⟩ := List.cons_eq_cons.mp heq
            subst h1
            rw [hs] at hf
            injection hf with h3
            subst h3
            exact lookupChain_cons_some s rest name w hs
          · simp only [List.cons_append] at heq
            obtain ⟨h1, h2⟩ := List.cons_eq_cons.mp heq
            subst h1
            have h4 := hpre s (List.mem_cons_self s pre2)
            rw [hs] at h4
            simp at h4
  · intro s rest tl il htl hs
    have hstep : analyze_node (s :: rest) (.mk ("VariableDeclaration")
        (.ofList [.mk tl .nil, .mk il .nil]))
        = analyze_variable_declaration (s :: rest)
            (.ofList [.mk tl .nil, .mk il .nil]) := rfl
    constructor
    · rw [hstep]
      simp [analyze_variable_declaration, ParseNodeList.ofList, declareChain,
        declare, ParseNode.name, hs, Except.map]
    · exact lookupChain_cons_some _ rest (payload il) ⟨payload tl, false⟩
        (lookup_append_self s (payload il) ⟨payload tl, false⟩ hs)

/-- C7 witness: both characterizations applied to concrete chains, and the
declaration round trip for a concrete declaration. -/
theorem C7_witness :
    lookupChain [[], [(("x"), ⟨("int"), false⟩)]] ("x") = .ok ⟨("int"), false⟩ ∧
    lookupChain [[(("a"), ⟨("int"), false⟩)]] ("x")
      = .error (.undeclaredSymbol ("x")) ∧
    (analyze_node [[(("a"), ⟨("int"), false⟩)]] (.mk ("VariableDeclaration")
        (.ofList [.mk ("Type(char)") .nil, .mk ("Identifier(y)") .nil]))
      = .ok [[(("a"), ⟨("int"), false⟩), (("y"), ⟨("char"), false⟩)]] ∧
     lookupChain [[(("a"), ⟨("int"), false⟩), (("y"), ⟨("char"), false⟩)]] ("y")
      = .ok ⟨("char"), false⟩) := by
  refine ⟨?_, ?_, ?_⟩
  · exact (C7_lookup_walks_chain_and_declaration_roundtrip.2.1
      [[], [(("x"), ⟨("int"), false⟩)]] ("x") ⟨("int"), false⟩).mpr
      ⟨[[]], [(("x"), ⟨("int"), false⟩)], [], rfl, by decide, by decide⟩
  · exact (C7_lookup_walks_chain_and_declaration_roundtrip.1
      [[(("a"), ⟨("int"), false⟩)]] ("x")).mpr (by decide)
  · exact C7_lookup_walks_chain_and_declaration_roundtrip.2.2
      [(("a"), ⟨("int"), false⟩)] [] ("Type(char)") ("Identifier(y)")
      (by decide) (by decide)

/-- C3: for a VariableDeclaration node with an initializer, the
initializer is type-checked strictly before the declared name is inserted
into the current scope, so a failing check aborts the analysis with the
type-checking error and the name is never declared; consequently a
self-referential initializer such as int x = x, with no enclosing
declaration of x, fails with the undeclared-symbol error raised during
the initializer lookup, re-raised by the analyzer with its
assignment-error wrapping, and not with any type error. -/
theorem C3_initializer_checked_before_declaration :
    (∀ (st : Chain) (tnode idnode init_node : ParseNode) (e : SemanticError),
      type_check_assignment st (payload tnode.name) init_node = .error e →
      analyze_node st (.mk ("VariableDeclaration")
        (.cons tnode (.cons idnode (.cons init_node .nil)))) = .error e) ∧
    (∀ st : Chain, lookupChain st ("x") = .error (.undeclaredSymbol ("x")) →
      analyze_node st (.mk ("VariableDeclaration") (.ofList
        [.mk ("Type(int)") .nil, .mk ("Identifier(x)") .nil,
         .mk ("Identifier(x)") .nil]))
        = .error (.assignmentError (.undeclaredSymbol ("x")))) := by
  constructor
  · intro st tnode idnode init_node e h
    have hstep : analyze_node st (.mk ("VariableDeclaration")
        (.cons tnode (.cons idnode (.cons init_node .nil))))
        = analyze_variable_declaration st
            (.cons tnode (.cons idnode (.cons init_node .nil))) := rfl
    rw [hstep]
    simp [analyze_variable_declaration, h]
  · intro st h
    have hstep : analyze_node st (.mk ("VariableDeclaration") (.ofList
        [.mk ("Type(int)") .nil, .mk ("Identifier(x)") .nil,
         .mk ("Identifier(x)") .nil]))
        = analyze_variable_declaration st (.ofList
            [.mk ("Type(int)") .nil, .mk ("Identifier(x)") .nil,
             .mk ("Identifier(x)") .nil]) := rfl
    have h1 : starts_with ("Identifier(x)") ("Number") = false := rfl
    have h2 : starts_with ("Identifier(x)") ("Identifier") = true := rfl
    have h3 : payload ("Identifier(x)") = "x" := rfl
    have h4 : payload ("Type(int)") = "int" := rfl
    rw [hstep]
    simp [analyze_variable_declaration, ParseNodeList.ofList, ParseNode.name,
      type_check_assignment, h1, h2, h3, h4, h]

/-- C3 witness: the self-referential declaration analyzed against a chain
with one empty scope, and the same failure end to end for the source
text int x = x; under the default predefined functions. -/
theorem C3_witness :
    analyze_node [[]] (.mk ("VariableDeclaration") (.ofList
        [.mk ("Type(int)") .nil, .mk ("Identifier(x)") .nil,
         .mk ("Identifier(x)") .nil]))
      = .error (.assignmentError (.undeclaredSymbol ("x"))) ∧
    (match parse_program (Lexer ("int x = x;")) with
     | .ok tree => analyze none tree
     | .error _ => .ok [])
      = .error (.assignmentError (.undeclaredSymbol ("x"))) :=
  ⟨C3_initializer_checked_before_declaration.2 [[]] rfl, rfl⟩

/-- C5: analyzing a FunctionCall whose callee name is absent from the
entire scope chain fails with the undeclared-symbol error, and one whose
callee resolves to a symbol with the function flag false fails with the
not-a-function error, in both cases re-raised with the function-call
wrapping of the analyzer; a call whose callee resolves to a function
symbol raises neither and succeeds. -/
theorem C5_function_call_callee_checks :
    ∀ (st : Chain) (c0 : ParseNode) (args : ParseNodeList),
      (lookupChain st (payload c0.name)
          = .error (.undeclaredSymbol (payload c0.name)) →
        analyze_node st (.mk ("FunctionCall") (.cons c0 args))
          = .error (.functionCallError (.undeclaredSymbol (payload c0.name)))) ∧
      (∀ info, lookupChain st (payload c0.name) = .ok info →
        info.is_function = false →
        analyze_node st (.mk ("FunctionCall") (.cons c0 args))
          = .error (.functionCallError (.notAFunction (payload c0.name)))) ∧
      (∀ info, lookupChain st (payload c0.name) = .ok info →
        info.is_function = true →
        analyze_node st (.mk ("FunctionCall") (.cons c0 args)) = .ok st) := by
  intro st c0 args
  have hstep : analyze_node st (.mk ("FunctionCall") (.cons c0 args))
      = analyze_function_call st (.cons c0 args) := rfl
  refine ⟨?_, ?_, ?_⟩
  · intro h
    rw [hstep]
    simp [analyze_function_call, h]
  · intro info h hf
    rw [hstep]
    simp [analyze_function_call, h, hf]
  · intro info h hf
    rw [hstep]
    simp [analyze_function_call, h, hf]

/-- C5 witness: the three cases at concrete inputs, using the default
global scope for the successful call to printf. -/
theorem C5_witness :
    analyze_node [[(("x"), ⟨("int"), false⟩)]] (.mk ("FunctionCall")
        (.cons (.mk ("Identifier(nope)") .nil) .nil))
      = .error (.functionCallError (.undeclaredSymbol ("nope"))) ∧
    analyze_node [[(("x"), ⟨("int"), false⟩)]] (.mk ("FunctionCall")
        (.cons (.mk ("Identifier(x)") .nil) .nil))
      = .error (.functionCallError (.notAFunction ("x"))) ∧
    analyze_node [[(("printf"), ⟨("int"), true⟩)]] (.mk ("FunctionCall")
        (.cons (.mk ("Identifier(printf)") .nil)
          (.cons (.mk ("Identifier(x)") .nil) .nil)))
      = .ok [[(("printf"), ⟨("int"), true⟩)]] :=
  ⟨(C5_function_call_callee_checks [[(("x"), ⟨("int"), false⟩)]]
      (.mk ("Identifier(nope)") .nil) .nil).1 rfl,
   (C5_function_call_callee_checks [[(("x"), ⟨("int"), false⟩)]]
      (.mk ("Identifier(x)") .nil) .nil).2.1 ⟨("int"), false⟩ rfl rfl,
   (C5_function_call_callee_checks [[(("printf"), ⟨("int"), true⟩)]]
      (.mk ("Identifier(printf)") .nil)
      (.cons (.mk ("Identifier(x)") .nil) .nil)).2.2 ⟨("int"), true⟩ rfl rfl⟩

/-- C9: analyzing a FunctionCall inspects only the first child: the
result is the same for any two argument lists, so the arguments are never
analyzed, looked up or type-checked; and when the callee resolves to a
function symbol the analysis succeeds with the scope chain returned
unchanged, even when an argument is an undeclared identifier or an
erroneous nested call. -/
theorem C9_call_arguments_never_analyzed :
    ∀ (st : Chain) (c0 : ParseNode) (args args2 : ParseNodeList),
      analyze_node st (.mk ("FunctionCall") (.cons c0 args))
        = analyze_node st (.mk ("FunctionCall") (.cons c0 args2)) ∧
      (∀ info, lookupChain st (payload c0.name) = .ok info →
        info.is_function = true →
        analyze_node st (.mk ("FunctionCall") (.cons c0 args)) = .ok st) := by
  intro st c0 args args2
  constructor
  · rfl
  · intro info h hf
    have hstep : analyze_node st (.mk ("FunctionCall") (.cons c0 args))
        = analyze_function_call st (.cons c0 args) := rfl
    rw [hstep]
    simp [analyze_function_call, h, hf]

/-- C9 witness: a call to printf succeeds with the chain unchanged even
though its argument is an undeclared identifier, and equals the analysis
of the same call with no arguments at all. -/
theorem C9_witness :
    analyze_node [[(("printf"), ⟨("int"), true⟩)]] (.mk ("FunctionCall")
        (.cons (.mk ("Identifier(printf)") .nil)
          (.cons (.mk ("Identifier(undeclared_arg)") .nil) .nil)))
      = .ok [[(("printf"), ⟨("int"), true⟩)]] ∧
    analyze_node [[(("printf"), ⟨("int"), true⟩)]] (.mk ("FunctionCall")
        (.cons (.mk ("Identifier(printf)") .nil)
          (.cons (.mk ("Identifier(undeclared_arg)") .nil) .nil)))
      = analyze_node [[(("printf"), ⟨("int"), true⟩)]] (.mk ("FunctionCall")
        (.cons (.mk ("Identifier(printf)") .nil) .nil)) :=
  ⟨(C9_call_arguments_never_analyzed [[(("printf"), ⟨("int"), true⟩)]]
      (.mk ("Identifier(printf)") .nil)
      (.cons (.mk ("Identifier(undeclared_arg)") .nil) .nil) .nil).2
      ⟨("int"), true⟩ rfl rfl,
   (C9_call_arguments_never_analyzed [[(("printf"), ⟨("int"), true⟩)]]
      (.mk ("Identifier(printf)") .nil)
      (.cons (.mk ("Identifier(undeclared_arg)") .nil) .nil) .nil).1⟩

/-- C8: for every Function node whose analysis from a chain succeeds, the
body was analyzed in a freshly pushed scope whose chain still holds every
enclosing scope, including the current scope already extended with the
function's own name, so names declared in enclosing scopes are visible to
lookups inside the body; the scope pushed for the body is discarded
afterwards, so names declared inside the body survive in no scope; and
the chain after the call is exactly the chain from before the call, its
innermost scope extended only by the function's name. -/
theorem C8_function_scope_pushed_and_discarded :
    ∀ (s : Scope) (rest : List Scope) (tnode idnode body : ParseNode)
      (tail : ParseNodeList) (chain2 : Chain),
      analyze_node (s :: rest) (.mk ("Function")
          (.cons tnode (.cons idnode (.cons body tail)))) = .ok chain2 →
      ∃ localScope,
        analyze_node (([] : Scope)
            :: (s ++ [(payload idnode.name, ⟨payload tnode.name, true⟩)]) :: rest)
            body
          = .ok (localScope
            :: (s ++ [(payload idnode.name, ⟨payload tnode.name, true⟩)]) :: rest) ∧
        chain2 = (s ++ [(payload idnode.name, ⟨payload tnode.name, true⟩)]) :: rest := by
  intro s rest tnode idnode body tail chain2 h
  have hstep : analyze_node (s :: rest) (.mk ("Function")
      (.cons tnode (.cons idnode (.cons body tail))))
      = analyze_function (s :: rest)
          (.cons tnode (.cons idnode (.cons body tail))) := rfl
  rw [hstep, analyze_function_step] at h
  rcases hd : declare s (payload idnode.name) (payload tnode.name) true with e | s2
  · simp [hd] at h
  · simp only [hd] at h
    have hs2 : s2 = s ++ [(payload idnode.name, ⟨payload tnode.name, true⟩)] := by
      by_cases hdup : (s.lookup (payload idnode.name)).isSome
      · simp [declare, hdup] at hd
      · simp [declare, hdup] at hd
        exact hd.symm
    subst hs2
    rcases hb : analyze_node (([] : Scope)
        :: (s ++ [(payload idnode.name, ⟨payload tnode.name, true⟩)]) :: rest)
        body with e | st2
    · simp [hb] at h
    · simp only [hb] at h
      obtain ⟨c2, rfl⟩ := analyze_node_frame body ([] : Scope)
        ((s ++ [(payload idnode.name, ⟨payload tnode.name, true⟩)]) :: rest) st2 hb
      simp only [List.tail_cons] at h
      injection h with h2
      exact ⟨c2, hb, h2.symm⟩

/-- C8 witness: a function f whose body declares a local y, analyzed from
a chain holding one empty scope: the body sees the scope extended with f,
and afterwards the chain holds exactly f and no trace of y. -/
theorem C8_witness :
    ∃ localScope,
      analyze_node (([] : Scope) :: [(("f"), ⟨("int"), true⟩)] :: [])
          (.mk ("DeclarationList") (.ofList [.mk ("VariableDeclaration")
            (.ofList [.mk ("Type(int)") .nil, .mk ("Identifier(y)") .nil])]))
        = .ok (localScope :: [(("f"), ⟨("int"), true⟩)] :: []) ∧
      ([[(("f"), ⟨("int"), true⟩)]] : Chain)
        = [(("f"), ⟨("int"), true⟩)] :: [] :=
  C8_function_scope_pushed_and_discarded [] [] (.mk ("Type(int)") .nil)
    (.mk ("Identifier(f)") .nil)
    (.mk ("DeclarationList") (.ofList [.mk ("VariableDeclaration")
      (.ofList [.mk ("Type(int)") .nil, .mk ("Identifier(y)") .nil])]))
    .nil [[(("f"), ⟨("int"), true⟩)]] rfl

/-- C1: for the source text of the repository's own demonstration, the
lexer, the parser and the semantic analyzer with the default predefined
functions all succeed, and the resulting global symbol table maps main
and printf to int-typed function symbols while the local x of main is
absent from it. -/
theorem C1_end_to_end_demo_program :
    ∃ (tree : ParseNode) (g : Scope),
      parse_program (Lexer ("int main() \x7b int x = 5; printf(x); \x7d"))
        = .ok tree ∧
      analyze none tree = .ok g ∧
      g.lookup ("main") = some ⟨("int"), true⟩ ∧
      g.lookup ("printf") = some ⟨("int"), true⟩ ∧
      g.lookup ("x") = none :=
  ⟨.mk ("Program") (.ofList [
    .mk ("Function") (.ofList [
      .mk ("Type(int)") .nil,
      .mk ("Identifier(main)") .nil,
      .mk ("DeclarationList") (.ofList [
        .mk ("VariableDeclaration") (.ofList [
          .mk ("Type(int)") .nil, .mk ("Identifier(x)") .nil,
          .mk ("Number(5)") .nil]),
        .mk ("ExpressionStatement") (.ofList [
          .mk ("FunctionCall") (.ofList [
            .mk ("Identifier(printf)") .nil,
            .mk ("Identifier(x)") .nil])])])])]),
   [(("printf"), ⟨("int"), true⟩), (("puts"), ⟨("int"), true⟩),
    (("getchar"), ⟨("int"), true⟩), (("scanf"), ⟨("int"), true⟩),
    (("main"), ⟨("int"), true⟩)],
   rfl, rfl, rfl, rfl, rfl⟩

/-- C4 evaluation: tokenizing the truncated source int x = yields the
three tokens below; consuming past their end inside consume raises the
deliberate unexpected-end-of-input parse error, but running the parser on
the stream instead crashes in parse_expression by reading an attribute of
None, which in the Python source is an AttributeError and not one of the
parser's own errors. -/
theorem C4_truncated_stream_attribute_error :
    Lexer ("int x =")
      = [⟨("KEYWORD"), ("int")⟩, ⟨("IDENTIFIER"), ("x")⟩,
         ⟨("OPERATOR"), ("=")⟩] ∧
    consume (Lexer ("int x =")) 3 (some ("DELIMITER")) none
      = .error .unexpectedEndOfInput ∧
    parse_program (Lexer ("int x =")) = .error .attributeErrorNoneType :=
  ⟨rfl, rfl, rfl⟩
